import Mathlib

/-!
Shallow embedding of the `french_practice` package (files `data.py` and
`exercises.py`).  Python's `random.choice` is modelled by an explicit oracle
argument `k : Nat`: `choice l k` returns element `k % l.length` of `l`, and
`none` when the list is empty (Python raises `IndexError` there).  Python
exceptions are modelled by `Option` / `Except`; mutation is modelled by
explicit state passing.  `str.strip` / `str.lower` are modelled on the
character lists of Lean strings (`Char.toLower` is the ASCII case map; every
expected answer in the static catalog is already lower case).
-/

namespace FrenchPractice

/-- Model of Python `random.choice(l)` with an explicit oracle `k`;
`none` models the `IndexError` raised on an empty sequence. -/
def choice {α : Type} (l : List α) (k : Nat) : Option α :=
  l[k % l.length]?

/-- Model of Python `str.lower` (ASCII case map). -/
def pyLower (s : String) : String :=
  ⟨s.data.map Char.toLower⟩

/-- Characters removed by Python `str.strip()`. -/
def isPySpace (c : Char) : Bool :=
  c == ' ' || c == '\t' || c == '\n' || c == '\r' || c == '\x0b' || c == '\x0c'

/-- Model of Python `str.strip()`: drop whitespace at both ends. -/
def pyStrip (s : String) : String :=
  ⟨((s.data.dropWhile isPySpace).reverse.dropWhile isPySpace).reverse⟩

/-- `data.VocabularyItem`: frozen dataclass (french, english, category). -/
structure VocabularyItem where
  french : String
  english : String
  category : String
  deriving DecidableEq

/-- `data.VOCABULARY`: the static vocabulary catalog, in source order. -/
def VOCABULARY : List VocabularyItem :=
  [⟨"bonjour", "hello", "greetings"⟩,
   ⟨"au revoir", "goodbye", "greetings"⟩,
   ⟨"s\x27il vous plaît", "please", "greetings"⟩,
   ⟨"merci", "thank you", "greetings"⟩,
   ⟨"pardon", "sorry", "greetings"⟩,
   ⟨"pain", "bread", "food"⟩,
   ⟨"fromage", "cheese", "food"⟩,
   ⟨"eau", "water", "food"⟩,
   ⟨"pomme", "apple", "food"⟩,
   ⟨"vin", "wine", "food"⟩,
   ⟨"maison", "house", "home"⟩,
   ⟨"chaise", "chair", "home"⟩,
   ⟨"porte", "door", "home"⟩,
   ⟨"fenêtre", "window", "home"⟩,
   ⟨"cuisine", "kitchen", "home"⟩,
   ⟨"chat", "cat", "animals"⟩,
   ⟨"chien", "dog", "animals"⟩,
   ⟨"oiseau", "bird", "animals"⟩,
   ⟨"poisson", "fish", "animals"⟩,
   ⟨"cheval", "horse", "animals"⟩]

/-- `data.ConjugationPattern`: frozen dataclass of an infinitive plus six
present-tense forms. -/
structure ConjugationPattern where
  infinitive : String
  je : String
  tu : String
  il : String
  nous : String
  vous : String
  ils : String
  deriving DecidableEq

/-- `ConjugationPattern.pronouns`: fixed six pronoun labels (the property
ignores the instance). -/
def ConjugationPattern.pronouns (_p : ConjugationPattern) : List String :=
  ["je", "tu", "il/elle", "nous", "vous", "ils/elles"]

/-- `ConjugationPattern.answers`: the six forms in pronoun order. -/
def ConjugationPattern.answers (p : ConjugationPattern) : List String :=
  [p.je, p.tu, p.il, p.nous, p.vous, p.ils]

/-- `data.PRESENT_TENSE`: the static conjugation catalog, in source order. -/
def PRESENT_TENSE : List ConjugationPattern :=
  [⟨"parler", "parle", "parles", "parle", "parlons", "parlez", "parlent"⟩,
   ⟨"finir", "finis", "finis", "finit", "finissons", "finissez", "finissent"⟩,
   ⟨"avoir", "ai", "as", "a", "avons", "avez", "ont"⟩,
   ⟨"être", "suis", "es", "est", "sommes", "êtes", "sont"⟩,
   ⟨"aller", "vais", "vas", "va", "allons", "allez", "vont"⟩]

/-- Python truthiness test `not category` on an optional string:
true for `None` and for the empty string. -/
def isFalsy : Option String → Bool
  | none => true
  | some s => s == ""

/-- The test `category == "all"` (Python `None == "all"` is `False`). -/
def isAll : Option String → Bool
  | none => false
  | some s => s == "all"

/-- The filter predicate `item.category == category` of
`random_vocabulary_item` (`x == None` is `False` in Python). -/
def matchesCategory (category : Option String) (item : VocabularyItem) : Bool :=
  match category with
  | none => false
  | some s => item.category == s

/-- `data.random_vocabulary_item`: draw from the whole catalog when the
filter is falsy or the "all" sentinel; otherwise draw from the filtered
subset, falling back to the whole catalog when it is empty. -/
def random_vocabulary_item (category : Option String) (k : Nat) :
    Option VocabularyItem :=
  if isFalsy category || isAll category then
    choice VOCABULARY k
  else
    let filtered := VOCABULARY.filter (matchesCategory category)
    if filtered.isEmpty then choice VOCABULARY k
    else choice filtered k

/-- `data.random_conjugation_pattern`. -/
def random_conjugation_pattern (k : Nat) : Option ConjugationPattern :=
  choice PRESENT_TENSE k

/-- `exercises.ExerciseState`: totals and streak counters. -/
structure ExerciseState where
  total_attempts : Nat
  correct_attempts : Nat
  current_streak : Nat
  deriving DecidableEq

/-- The dataclass defaults `(0, 0, 0)`. -/
def ExerciseState.init : ExerciseState :=
  ⟨0, 0, 0⟩

/-- `ExerciseState.register_attempt`. -/
def ExerciseState.register_attempt (s : ExerciseState) (correct : Bool) :
    ExerciseState :=
  if correct then
    ⟨s.total_attempts + 1, s.correct_attempts + 1, s.current_streak + 1⟩
  else
    ⟨s.total_attempts + 1, s.correct_attempts, 0⟩

/-- `ExerciseState.accuracy`, with Python float division modelled by exact
rational division. -/
def ExerciseState.accuracy (s : ExerciseState) : ℚ :=
  if s.total_attempts = 0 then 0
  else (s.correct_attempts : ℚ) / (s.total_attempts : ℚ)

/-- Fold a sequence of outcomes through `register_attempt` from the initial
state. -/
def runAttempts (outcomes : List Bool) : ExerciseState :=
  outcomes.foldl ExerciseState.register_attempt ExerciseState.init

/-- Length of the trailing run of `true` outcomes. -/
def trailingTrueRun (outcomes : List Bool) : Nat :=
  (outcomes.reverse.takeWhile (fun b => b)).length

/-- `exercises.FlashcardExercise` (fields only; methods below). -/
structure FlashcardExercise where
  category : Option String
  state : ExerciseState
  current_item : Option VocabularyItem
  deriving DecidableEq

/-- The dataclass defaults of `FlashcardExercise`. -/
def FlashcardExercise.init : FlashcardExercise :=
  ⟨none, ExerciseState.init, none⟩

/-- `FlashcardExercise.next_prompt`. -/
def FlashcardExercise.next_prompt (e : FlashcardExercise) (k : Nat) :
    Option (VocabularyItem × FlashcardExercise) :=
  match random_vocabulary_item e.category k with
  | none => none
  | some item => some (item, { e with current_item := some item })

/-- `FlashcardExercise.check_answer`: lazily draw a prompt when absent, then
compare the stripped, lower-cased answer with the lower-cased translation and
record the outcome. -/
def FlashcardExercise.check_answer (e : FlashcardExercise) (answer : String)
    (k : Nat) : Option (Bool × FlashcardExercise) :=
  let drawn : Option FlashcardExercise :=
    match e.current_item with
    | none => (e.next_prompt k).map Prod.snd
    | some _ => some e
  match drawn with
  | none => none
  | some e2 =>
    match e2.current_item with
    | none => none
    | some item =>
      let correct := pyLower (pyStrip answer) == pyLower item.english
      some (correct, { e2 with state := e2.state.register_attempt correct })

/-- `exercises.ConjugationExercise` (fields only; methods below). -/
structure ConjugationExercise where
  state : ExerciseState
  current_pattern : Option ConjugationPattern
  current_index : Nat
  deriving DecidableEq

/-- The dataclass defaults of `ConjugationExercise`. -/
def ConjugationExercise.init : ConjugationExercise :=
  ⟨ExerciseState.init, none, 0⟩

/-- `ConjugationExercise.next_prompt`: draw a pattern, reset the slot to the
position of "je", return (infinitive, active pronoun). -/
def ConjugationExercise.next_prompt (e : ConjugationExercise) (k : Nat) :
    Option ((String × String) × ConjugationExercise) :=
  match random_conjugation_pattern k with
  | none => none
  | some pattern =>
    let idx := pattern.pronouns.indexOf "je"
    let e2 := { e with current_pattern := some pattern, current_index := idx }
    match pattern.pronouns[idx]? with
    | none => none
    | some pr => some ((pattern.infinitive, pr), e2)

/-- `ConjugationExercise.cycle_prompt`: advance the slot modulo the pronoun
count on the same pattern; fall back to `next_prompt` when no pattern is
current. -/
def ConjugationExercise.cycle_prompt (e : ConjugationExercise) (k : Nat) :
    Option ((String × String) × ConjugationExercise) :=
  match e.current_pattern with
  | none => e.next_prompt k
  | some p =>
    let idx := (e.current_index + 1) % p.pronouns.length
    let e2 := { e with current_index := idx }
    match p.pronouns[idx]? with
    | none => none
    | some pr => some ((p.infinitive, pr), e2)

/-- `ConjugationExercise.check_answer`: lazily draw when no pattern is
current, then compare against the form at the active slot and record the
outcome (`none` models the `IndexError` on an out-of-range slot). -/
def ConjugationExercise.check_answer (e : ConjugationExercise)
    (answer : String) (k : Nat) : Option (Bool × ConjugationExercise) :=
  let drawn : Option ConjugationExercise :=
    match e.current_pattern with
    | none => (e.next_prompt k).map Prod.snd
    | some _ => some e
  match drawn with
  | none => none
  | some e2 =>
    match e2.current_pattern with
    | none => none
    | some p =>
      match p.answers[e2.current_index]? with
      | none => none
      | some expected =>
        let correct := pyLower (pyStrip answer) == pyLower expected
        some (correct, { e2 with state := e2.state.register_attempt correct })

/-- Iterate `cycle_prompt`, keeping only the state. -/
def cycleTimes (k : Nat) : Nat → ConjugationExercise → Option ConjugationExercise
  | 0, e => some e
  | n + 1, e =>
    match e.cycle_prompt k with
    | none => none
    | some r => cycleTimes k n r.2

/-- `exercises.ExerciseRegistry`: insertion-ordered name-to-factory mapping
(Python dict preserves insertion order; re-registering a name overwrites the
factory but keeps the original position). -/
structure ExerciseRegistry (α : Type) where
  creators : List (String × (Unit → α))

/-- The empty registry built by `__init__`. -/
def ExerciseRegistry.empty (α : Type) : ExerciseRegistry α :=
  ⟨[]⟩

/-- `ExerciseRegistry.register`. -/
def ExerciseRegistry.register {α : Type} (r : ExerciseRegistry α)
    (name : String) (factory : Unit → α) : ExerciseRegistry α :=
  if r.creators.any (fun kv => kv.1 == name) then
    ⟨r.creators.map (fun kv => if kv.1 == name then (name, factory) else kv)⟩
  else
    ⟨r.creators ++ [(name, factory)]⟩

/-- `ExerciseRegistry.create`: `KeyError` modelled by `Except.error` with the
message `f"Unknown exercise: {name}"`. -/
def ExerciseRegistry.create {α : Type} (r : ExerciseRegistry α)
    (name : String) : Except String α :=
  match r.creators.find? (fun kv => kv.1 == name) with
  | some kv => Except.ok (kv.2 ())
  | none => Except.error ("Unknown exercise: " ++ name)

/-- `ExerciseRegistry.names`: the registered names in registration order. -/
def ExerciseRegistry.names {α : Type} (r : ExerciseRegistry α) : List String :=
  r.creators.map Prod.fst

/-- Build a registry from a list of registrations, starting empty. -/
def registerAll {α : Type} (rs : List (String × (Unit → α))) :
    ExerciseRegistry α :=
  rs.foldl (fun r nf => r.register nf.1 nf.2) (ExerciseRegistry.empty α)

/-- Common type for the two exercise kinds stored in the module registry. -/
inductive Exercise where
  | flashcard : FlashcardExercise → Exercise
  | conjugation : ConjugationExercise → Exercise

/-- The `FlashcardExercise` class used as a zero-argument factory. -/
def mkFlashcards : Unit → Exercise :=
  fun _ => Exercise.flashcard FlashcardExercise.init

/-- The `ConjugationExercise` class used as a zero-argument factory. -/
def mkConjugation : Unit → Exercise :=
  fun _ => Exercise.conjugation ConjugationExercise.init

/-- `exercises.EXERCISES`: the module-level registry with its two
registrations. -/
def EXERCISES : ExerciseRegistry Exercise :=
  ((ExerciseRegistry.empty Exercise).register "Flashcards" mkFlashcards).register
    "Conjugation" mkConjugation

/-- Scenario fixtures used by the witness theorems. -/
def demoPattern : ConjugationPattern :=
  ⟨"parler", "parle", "parles", "parle", "parlons", "parlez", "parlent"⟩

/-- A flashcard exercise currently showing (bonjour, hello, greetings). -/
def demoFlashcard : FlashcardExercise :=
  ⟨none, ExerciseState.init, some ⟨"bonjour", "hello", "greetings"⟩⟩

/-- A conjugation exercise currently on the parler pattern at slot 0. -/
def demoConjugation : ConjugationExercise :=
  ⟨ExerciseState.init, some demoPattern, 0⟩



theorem choice_total {α : Type} (l : List α) (h : l ≠ []) (k : Nat) :
    ∃ a, choice l k = some a ∧ a ∈ l := by
  have hlen : 0 < l.length := List.length_pos.mpr h
  have hm : k % l.length < l.length := Nat.mod_lt _ hlen
  exact ⟨l[k % l.length], List.getElem?_eq_getElem hm, List.getElem_mem hm⟩

theorem runAttempts_concat (xs : List Bool) (b : Bool) :
    runAttempts (xs ++ [b]) = (runAttempts xs).register_attempt b := by
  simp [runAttempts, List.foldl_append]

theorem foldl_correct_le_total (l : List Bool) (s : ExerciseState)
    (h : s.correct_attempts ≤ s.total_attempts) :
    (l.foldl ExerciseState.register_attempt s).correct_attempts ≤
      (l.foldl ExerciseState.register_attempt s).total_attempts := by
  induction l generalizing s with
  | nil => exact h
  | cons b t ih =>
      refine ih _ ?_
      cases b
      · simp [ExerciseState.register_attempt]
        omega
      · simp [ExerciseState.register_attempt]
        omega

theorem foldl_streak_le_correct (l : List Bool) (s : ExerciseState)
    (h : s.current_streak ≤ s.correct_attempts) :
    (l.foldl ExerciseState.register_attempt s).current_streak ≤
      (l.foldl ExerciseState.register_attempt s).correct_attempts := by
  induction l generalizing s with
  | nil => exact h
  | cons b t ih =>
      refine ih _ ?_
      cases b
      · simp [ExerciseState.register_attempt]
      · simp [ExerciseState.register_attempt]
        omega

theorem runAttempts_streak (l : List Bool) :
    (runAttempts l).current_streak = trailingTrueRun l := by
  induction l using List.reverseRecOn with
  | nil => rfl
  | append_singleton xs b ih =>
      cases b <;>
        simp [runAttempts_concat, ExerciseState.register_attempt,
          trailingTrueRun, ih]

theorem vocab_category_nonsentinel :
    ∀ it ∈ VOCABULARY, it.category ≠ "" ∧ it.category ≠ "all" := by decide

theorem rvi_total (cat : Option String) (k : Nat) :
    ∃ it, random_vocabulary_item cat k = some it ∧ it ∈ VOCABULARY := by
  rw [random_vocabulary_item]
  by_cases hc : (isFalsy cat || isAll cat) = true
  · rw [if_pos hc]
    exact choice_total VOCABULARY (by decide) k
  · rw [if_neg hc]
    by_cases he : (VOCABULARY.filter (matchesCategory cat)).isEmpty = true
    · rw [if_pos he]
      exact choice_total VOCABULARY (by decide) k
    · rw [if_neg he]
      have hne : VOCABULARY.filter (matchesCategory cat) ≠ [] := by
        intro h0
        rw [h0] at he
        exact he rfl
      obtain ⟨a, ha, hmem⟩ := choice_total _ hne k
      exact ⟨a, ha, (List.mem_filter.mp hmem).1⟩

theorem next_prompt_spec (e : ConjugationExercise) (k : Nat) :
    ∃ pat, pat ∈ PRESENT_TENSE ∧
      e.next_prompt k
        = some ((pat.infinitive, "je"),
            { e with current_pattern := some pat, current_index := 0 }) := by
  obtain ⟨pat, hpat, hmem⟩ := choice_total PRESENT_TENSE (by decide) k
  refine ⟨pat, hmem, ?_⟩
  rw [ConjugationExercise.next_prompt,
    show random_conjugation_pattern k = some pat from hpat]
  rfl

theorem flashcard_check_answer_eq (e : FlashcardExercise) (it : VocabularyItem)
    (s : String) (k : Nat) (hf : e.current_item = some it) :
    e.check_answer s k
      = some (pyLower (pyStrip s) == pyLower it.english,
          { e with state :=
              e.state.register_attempt (pyLower (pyStrip s) == pyLower it.english) }) := by
  simp [FlashcardExercise.check_answer, hf]

theorem conjugation_check_answer_eq (c : ConjugationExercise)
    (p : ConjugationPattern) (expected : String) (s : String) (k : Nat)
    (hp : c.current_pattern = some p)
    (hx : p.answers[c.current_index]? = some expected) :
    c.check_answer s k
      = some (pyLower (pyStrip s) == pyLower expected,
          { c with state :=
              c.state.register_attempt (pyLower (pyStrip s) == pyLower expected) }) := by
  simp [ConjugationExercise.check_answer, hp, hx]

/-- C1: along any outcome sequence from the initial state,
correct_attempts stays at most total_attempts, each call adds exactly one
to total_attempts, and current_streak equals the trailing run of true
outcomes (incrementing on true, resetting on false). -/
theorem C1_register_attempt_invariants (outcomes : List Bool) (b : Bool) :
    (runAttempts outcomes).correct_attempts
      ≤ (runAttempts outcomes).total_attempts ∧
    (runAttempts (outcomes ++ [b])).total_attempts
      = (runAttempts outcomes).total_attempts + 1 ∧
    (runAttempts outcomes).current_streak = trailingTrueRun outcomes ∧
    (runAttempts (outcomes ++ [true])).current_streak
      = (runAttempts outcomes).current_streak + 1 ∧
    (runAttempts (outcomes ++ [false])).current_streak = 0 := by
  refine ⟨foldl_correct_le_total outcomes ExerciseState.init (Nat.le_refl 0),
    ?_, runAttempts_streak outcomes, ?_, ?_⟩
  · rw [runAttempts_concat]
    cases b <;> simp [ExerciseState.register_attempt]
  · rw [runAttempts_concat]
    simp [ExerciseState.register_attempt]
  · rw [runAttempts_concat]
    simp [ExerciseState.register_attempt]

/-- C9: along any outcome sequence from the initial state, the streak never
exceeds correct_attempts, hence never exceeds total_attempts. -/
theorem C9_streak_bounded (outcomes : List Bool) :
    (runAttempts outcomes).current_streak
      ≤ (runAttempts outcomes).correct_attempts ∧
    (runAttempts outcomes).current_streak
      ≤ (runAttempts outcomes).total_attempts := by
  have h1 := foldl_streak_le_correct outcomes ExerciseState.init (Nat.le_refl 0)
  have h2 := foldl_correct_le_total outcomes ExerciseState.init (Nat.le_refl 0)
  exact ⟨h1, Nat.le_trans h1 h2⟩

/-- C3 counterexample: after one incorrect attempt the state is reachable,
total_attempts is 1, yet accuracy is 0 — so accuracy being 0 does not imply
total_attempts = 0, refuting the "exactly when" direction. -/
theorem C3_counterexample :
    (runAttempts [false]).accuracy = 0 ∧
    (runAttempts [false]).total_attempts ≠ 0 := by
  constructor
  · norm_num [runAttempts, ExerciseState.register_attempt, ExerciseState.init,
      ExerciseState.accuracy]
  · decide

/-- C3 amended: accuracy is 0 when total_attempts is 0 (no division by
zero); otherwise it is correct_attempts / total_attempts, which lies in
[0, 1] whenever correct_attempts ≤ total_attempts. -/
theorem C3_accuracy_amended (st : ExerciseState) :
    (st.total_attempts = 0 → st.accuracy = 0) ∧
    (st.total_attempts ≠ 0 →
      st.accuracy = (st.correct_attempts : ℚ) / (st.total_attempts : ℚ)) ∧
    (st.correct_attempts ≤ st.total_attempts →
      0 ≤ st.accuracy ∧ st.accuracy ≤ 1) := by
  refine ⟨fun h => by simp [ExerciseState.accuracy, h],
    fun h => by simp [ExerciseState.accuracy, h], fun hle => ?_⟩
  by_cases h : st.total_attempts = 0
  · simp [ExerciseState.accuracy, h]
  · have hpos : (0 : ℚ) < (st.total_attempts : ℚ) := by
      exact_mod_cast Nat.pos_of_ne_zero h
    rw [ExerciseState.accuracy, if_neg h]
    constructor
    · exact div_nonneg (Nat.cast_nonneg _) (Nat.cast_nonneg _)
    · rw [div_le_one hpos]
      exact_mod_cast hle

/-- Witness for C3_accuracy_amended at the reachable state after one correct
and one incorrect attempt. -/
theorem C3_accuracy_amended_witness :
    (runAttempts [true, false]).correct_attempts
      ≤ (runAttempts [true, false]).total_attempts ∧
    (0 ≤ (runAttempts [true, false]).accuracy ∧
      (runAttempts [true, false]).accuracy ≤ 1) :=
  ⟨by decide, (C3_accuracy_amended (runAttempts [true, false])).2.2 (by decide)⟩

/-- C10: the empty-string filter, the absent filter and the "all" sentinel
all short-circuit to a draw from the whole catalog, never building the
filtered subset. -/
theorem C10_falsy_filter (k : Nat) :
    random_vocabulary_item (some "") k = choice VOCABULARY k ∧
    random_vocabulary_item (some "") k = random_vocabulary_item none k ∧
    random_vocabulary_item (some "") k
      = random_vocabulary_item (some "all") k :=
  ⟨rfl, rfl, rfl⟩

/-- C4: an absent or "all" filter draws from the whole catalog; any filter
still yields some catalog item (silent fallback, never a failure); a filter
naming a category carried by at least one item yields an item of exactly
that category. -/
theorem C4_random_vocabulary_item (c : String) (k : Nat) :
    random_vocabulary_item none k = choice VOCABULARY k ∧
    random_vocabulary_item (some "all") k = choice VOCABULARY k ∧
    (∃ it, random_vocabulary_item (some c) k = some it ∧ it ∈ VOCABULARY) ∧
    (VOCABULARY.any (fun it => it.category == c) = true →
      ∃ it, random_vocabulary_item (some c) k = some it ∧ it.category = c) := by
  refine ⟨rfl, rfl, rvi_total (some c) k, fun hany => ?_⟩
  obtain ⟨it0, hmem0, hbeq0⟩ := List.any_eq_true.mp hany
  have hcat0 : it0.category = c := by
    exact beq_iff_eq.mp hbeq0
  obtain ⟨hne1, hne2⟩ := vocab_category_nonsentinel it0 hmem0
  have hc1 : c ≠ "" := hcat0 ▸ hne1
  have hc2 : c ≠ "all" := hcat0 ▸ hne2
  have hcond : ¬((isFalsy (some c) || isAll (some c)) = true) := by
    simp [isFalsy, isAll]
    exact ⟨hc1, hc2⟩
  rw [random_vocabulary_item, if_neg hcond]
  have hfmem : it0 ∈ VOCABULARY.filter (matchesCategory (some c)) :=
    List.mem_filter.mpr ⟨hmem0, by simp [matchesCategory, hcat0]⟩
  have hne : VOCABULARY.filter (matchesCategory (some c)) ≠ [] := by
    intro h0
    rw [h0] at hfmem
    cases hfmem
  have hemp : ¬((VOCABULARY.filter (matchesCategory (some c))).isEmpty = true) := by
    intro h0
    exact hne (List.isEmpty_iff.mp h0)
  rw [if_neg hemp]
  obtain ⟨a, ha, hamem⟩ := choice_total _ hne k
  refine ⟨a, ha, ?_⟩
  have hp := (List.mem_filter.mp hamem).2
  simpa [matchesCategory] using hp

/-- Witness for C4_random_vocabulary_item at the "animals" category. -/
theorem C4_random_vocabulary_item_witness :
    VOCABULARY.any (fun it => it.category == "animals") = true ∧
    (∃ it, random_vocabulary_item (some "animals") 0 = some it ∧
      it.category = "animals") :=
  ⟨by decide, (C4_random_vocabulary_item "animals" 0).2.2.2 (by decide)⟩

/-- C2: check_answer judges a submission correct exactly when the stripped,
lower-cased submission equals the lower-cased target (the item translation
for flashcards, the active-slot form for conjugations), the judged boolean
is exactly the value recorded by register_attempt, and "  Hello  " against
"hello" is judged correct. -/
theorem C2_answer_comparison (e : FlashcardExercise) (it : VocabularyItem)
    (c : ConjugationExercise) (p : ConjugationPattern) (expected : String)
    (s : String) (k k2 : Nat)
    (hf : e.current_item = some it)
    (hp : c.current_pattern = some p)
    (hx : p.answers[c.current_index]? = some expected) :
    (∃ b e2, e.check_answer s k = some (b, e2) ∧
       (b = true ↔ pyLower (pyStrip s) = pyLower it.english) ∧
       e2 = { e with state := e.state.register_attempt b }) ∧
    (∃ b c2, c.check_answer s k2 = some (b, c2) ∧
       (b = true ↔ pyLower (pyStrip s) = pyLower expected) ∧
       c2 = { c with state := c.state.register_attempt b }) ∧
    pyLower (pyStrip "  Hello  ") = pyLower "hello" ∧
    (demoFlashcard.check_answer "  Hello  " 0).map Prod.fst = some true :=
  ⟨⟨pyLower (pyStrip s) == pyLower it.english, _,
      flashcard_check_answer_eq e it s k hf, beq_iff_eq, rfl⟩,
   ⟨pyLower (pyStrip s) == pyLower expected, _,
      conjugation_check_answer_eq c p expected s k2 hp hx, beq_iff_eq, rfl⟩,
   by decide, by decide⟩

/-- Witness for C2_answer_comparison on concrete exercises. -/
theorem C2_answer_comparison_witness :
    demoFlashcard.current_item = some ⟨"bonjour", "hello", "greetings"⟩ ∧
    demoConjugation.current_pattern = some demoPattern ∧
    demoPattern.answers[demoConjugation.current_index]? = some "parle" ∧
    (pyLower (pyStrip "  Hello  ") = pyLower "hello" ∧
     (demoFlashcard.check_answer "  Hello  " 0).map Prod.fst = some true) :=
  ⟨rfl, rfl, rfl,
    (C2_answer_comparison demoFlashcard ⟨"bonjour", "hello", "greetings"⟩
      demoConjugation demoPattern "parle" "  Hello  " 0 0 rfl rfl rfl).2.2⟩

/-- C5: with a pattern current and the slot invariant (index within the six
slots), cycle_prompt keeps the pattern, advances the slot by one modulo 6
and returns the infinitive with the new pronoun; six cycles restore the
exercise exactly; next_prompt always lands on slot 0, the position of
"je". -/
theorem C5_cycle_period (e : ConjugationExercise) (p : ConjugationPattern)
    (k : Nat) (hp : e.current_pattern = some p) (h6 : e.current_index < 6) :
    (∃ pr, p.pronouns[(e.current_index + 1) % 6]? = some pr ∧
       e.cycle_prompt k
         = some ((p.infinitive, pr),
             { e with current_index := (e.current_index + 1) % 6 })) ∧
    cycleTimes k 6 e = some e ∧
    (∀ r e2, e.next_prompt k = some (r, e2) → e2.current_index = 0) := by
  obtain ⟨st, cp, ci⟩ := e
  obtain rfl : cp = some p := hp
  have h6x : ci < 6 := h6
  refine ⟨?_, ?_, ?_⟩
  · interval_cases ci
    · exact ⟨"tu", rfl, rfl⟩
    · exact ⟨"il/elle", rfl, rfl⟩
    · exact ⟨"nous", rfl, rfl⟩
    · exact ⟨"vous", rfl, rfl⟩
    · exact ⟨"ils/elles", rfl, rfl⟩
    · refine ⟨"je", ?_, ?_⟩
      · norm_num [ConjugationPattern.pronouns]
      · simp [ConjugationExercise.cycle_prompt, ConjugationPattern.pronouns]
  · interval_cases ci <;>
      simp [cycleTimes, ConjugationExercise.cycle_prompt,
        ConjugationPattern.pronouns]
  · intro r e2 h
    obtain ⟨pat, hmem, hnp⟩ := next_prompt_spec ⟨st, some p, ci⟩ k
    rw [hnp] at h
    simp only [Option.some.injEq, Prod.mk.injEq] at h
    obtain ⟨-, he⟩ := h
    rw [← he]

/-- Witness for C5_cycle_period on the parler pattern at slot 0. -/
theorem C5_cycle_period_witness :
    demoConjugation.current_pattern = some demoPattern ∧
    demoConjugation.current_index < 6 ∧
    cycleTimes 0 6 demoConjugation = some demoConjugation :=
  ⟨rfl, by decide,
    (C5_cycle_period demoConjugation demoPattern 0 rfl (by decide)).2.1⟩

/-- C6: from the no-current-prompt state, check_answer first draws a prompt
internally: it never fails, afterwards a current item (a catalog member)
respectively a current pattern (from the static list, at the "je" slot)
exists. -/
theorem C6_lazy_draw (e : FlashcardExercise) (c : ConjugationExercise)
    (s : String) (k k2 : Nat)
    (hf : e.current_item = none) (hc : c.current_pattern = none) :
    (∃ b e2 it, e.check_answer s k = some (b, e2) ∧
       e2.current_item = some it ∧ it ∈ VOCABULARY) ∧
    (∃ b c2 p, c.check_answer s k2 = some (b, c2) ∧
       c2.current_pattern = some p ∧ p ∈ PRESENT_TENSE ∧
       c2.current_index = 0) := by
  constructor
  · obtain ⟨it, hit, hmem⟩ := rvi_total e.category k
    refine ⟨pyLower (pyStrip s) == pyLower it.english,
      { e with current_item := some it,
               state := e.state.register_attempt
                 (pyLower (pyStrip s) == pyLower it.english) },
      it, ?_, rfl, hmem⟩
    simp [FlashcardExercise.check_answer, hf, FlashcardExercise.next_prompt, hit]
  · obtain ⟨pat, hmem, hnp⟩ := next_prompt_spec c k2
    refine ⟨pyLower (pyStrip s) == pyLower pat.je,
      { c with current_pattern := some pat, current_index := 0,
               state := c.state.register_attempt
                 (pyLower (pyStrip s) == pyLower pat.je) },
      pat, ?_, rfl, hmem, rfl⟩
    simp [ConjugationExercise.check_answer, hc, hnp, ConjugationPattern.answers]

/-- Witness for C6_lazy_draw from the two initial exercises. -/
theorem C6_lazy_draw_witness :
    FlashcardExercise.init.current_item = none ∧
    ConjugationExercise.init.current_pattern = none ∧
    ((∃ b e2 it, FlashcardExercise.init.check_answer "hi" 0 = some (b, e2) ∧
        e2.current_item = some it ∧ it ∈ VOCABULARY) ∧
     (∃ b c2 p, ConjugationExercise.init.check_answer "hi" 0 = some (b, c2) ∧
        c2.current_pattern = some p ∧ p ∈ PRESENT_TENSE ∧
        c2.current_index = 0)) :=
  ⟨rfl, rfl,
    C6_lazy_draw FlashcardExercise.init ConjugationExercise.init "hi" 0 0
      rfl rfl⟩

/-- C7: with a current prompt, check_answer only touches the session state:
the current item and category filter (flashcards), respectively the current
pattern and active slot (conjugation), are unchanged — no auto-advance. -/
theorem C7_frame (e : FlashcardExercise) (it : VocabularyItem)
    (c : ConjugationExercise) (p : ConjugationPattern) (expected : String)
    (s : String) (k k2 : Nat)
    (hf : e.current_item = some it)
    (hp : c.current_pattern = some p)
    (hx : p.answers[c.current_index]? = some expected) :
    (∀ b e2, e.check_answer s k = some (b, e2) →
       e2.current_item = e.current_item ∧ e2.category = e.category) ∧
    (∀ b c2, c.check_answer s k2 = some (b, c2) →
       c2.current_pattern = c.current_pattern ∧
       c2.current_index = c.current_index) := by
  constructor
  · intro b e2 h
    rw [flashcard_check_answer_eq e it s k hf] at h
    simp only [Option.some.injEq, Prod.mk.injEq] at h
    obtain ⟨-, he⟩ := h
    rw [← he]
    exact ⟨rfl, rfl⟩
  · intro b c2 h
    rw [conjugation_check_answer_eq c p expected s k2 hp hx] at h
    simp only [Option.some.injEq, Prod.mk.injEq] at h
    obtain ⟨-, he⟩ := h
    rw [← he]
    exact ⟨rfl, rfl⟩

/-- Witness for C7_frame: checking a wrong answer on the demo exercises
leaves everything but the session state unchanged. -/
theorem C7_frame_witness :
    demoFlashcard.current_item = some ⟨"bonjour", "hello", "greetings"⟩ ∧
    demoConjugation.current_pattern = some demoPattern ∧
    demoPattern.answers[demoConjugation.current_index]? = some "parle" ∧
    ((FlashcardExercise.mk none (ExerciseState.mk 1 0 0)
        (some ⟨"bonjour", "hello", "greetings"⟩)).current_item
          = demoFlashcard.current_item ∧
     (FlashcardExercise.mk none (ExerciseState.mk 1 0 0)
        (some ⟨"bonjour", "hello", "greetings"⟩)).category
          = demoFlashcard.category) :=
  ⟨rfl, rfl, rfl,
    (C7_frame demoFlashcard ⟨"bonjour", "hello", "greetings"⟩
        demoConjugation demoPattern "parle" "cat" 0 0 rfl rfl rfl).1 false
      (FlashcardExercise.mk none (ExerciseState.mk 1 0 0)
        (some ⟨"bonjour", "hello", "greetings"⟩)) rfl⟩

theorem register_names_eq {α : Type} (r : ExerciseRegistry α)
    (name : String) (f : Unit → α) :
    (r.register name f).names
      = if r.creators.any (fun kv => kv.1 == name) then r.names
        else r.names ++ [name] := by
  rw [ExerciseRegistry.register]
  by_cases h : r.creators.any (fun kv => kv.1 == name) = true
  · rw [if_pos h, if_pos h]
    show (r.creators.map _).map Prod.fst = r.creators.map Prod.fst
    rw [List.map_map]
    refine List.map_congr_left ?_
    intro kv _
    by_cases hk : kv.1 = name
    · simp [hk]
    · simp [hk]
  · rw [if_neg h, if_neg h]
    show (r.creators ++ [(name, f)]).map Prod.fst = _
    simp [ExerciseRegistry.names]

theorem register_mem_names {α : Type} (r : ExerciseRegistry α)
    (name : String) (f : Unit → α) (n : String) :
    n ∈ (r.register name f).names ↔ n ∈ r.names ∨ n = name := by
  rw [register_names_eq]
  by_cases h : r.creators.any (fun kv => kv.1 == name) = true
  · rw [if_pos h]
    have hmem : name ∈ r.names := by
      obtain ⟨kv, hkv, hbeq⟩ := List.any_eq_true.mp h
      exact (beq_iff_eq.mp hbeq) ▸ List.mem_map_of_mem Prod.fst hkv
    constructor
    · exact Or.inl
    · rintro (hn | rfl)
      · exact hn
      · exact hmem
  · rw [if_neg h]
    simp [List.mem_append]

theorem register_names_nodup {α : Type} (r : ExerciseRegistry α)
    (name : String) (f : Unit → α) (h : r.names.Nodup) :
    (r.register name f).names.Nodup := by
  rw [register_names_eq]
  by_cases hc : r.creators.any (fun kv => kv.1 == name) = true
  · rw [if_pos hc]
    exact h
  · rw [if_neg hc]
    have hnot : name ∉ r.names := by
      intro hmem
      apply hc
      obtain ⟨kv, hkv, hfst⟩ := List.mem_map.mp hmem
      exact List.any_eq_true.mpr ⟨kv, hkv, beq_iff_eq.mpr hfst⟩
    rw [List.nodup_append]
    refine ⟨h, List.nodup_singleton name, ?_⟩
    intro a ha hb
    rw [List.mem_singleton.mp hb] at ha
    exact hnot ha

theorem registerAll_loop_nodup {α : Type} (rs : List (String × (Unit → α))) :
    ∀ r : ExerciseRegistry α, r.names.Nodup →
      ((rs.foldl (fun a nf => a.register nf.1 nf.2) r).names.Nodup) := by
  induction rs with
  | nil => exact fun r h => h
  | cons nf t ih =>
      intro r h
      exact ih _ (register_names_nodup r nf.1 nf.2 h)

theorem registerAll_loop_mem {α : Type} (rs : List (String × (Unit → α))) :
    ∀ (r : ExerciseRegistry α) (n : String),
      (n ∈ (rs.foldl (fun a nf => a.register nf.1 nf.2) r).names ↔
        n ∈ r.names ∨ n ∈ rs.map Prod.fst) := by
  induction rs with
  | nil => intro r n; simp
  | cons nf t ih =>
      intro r n
      rw [List.foldl_cons, ih, register_mem_names]
      simp [or_assoc]

/-- C8: create invokes the stored factory when the name is registered and
fails with the not-found error when it is not; for a registry built from
empty by any sequence of registrations, names lists each registered name
exactly once, in registration order (the list model is trivially
restartable). -/
theorem C8_registry (α : Type) (r r2 : ExerciseRegistry α)
    (name name2 : String) (nf : String × (Unit → α))
    (rs : List (String × (Unit → α)))
    (hfind : r.creators.find? (fun kv => kv.1 == name) = some nf)
    (hmiss : r2.creators.find? (fun kv => kv.1 == name2) = none) :
    r.create name = Except.ok (nf.2 ()) ∧
    r2.create name2 = Except.error ("Unknown exercise: " ++ name2) ∧
    (registerAll rs).names.Nodup ∧
    (∀ n, n ∈ (registerAll rs).names ↔ n ∈ rs.map Prod.fst) ∧
    EXERCISES.names = ["Flashcards", "Conjugation"] := by
  refine ⟨?_, ?_, ?_, ?_, rfl⟩
  · rw [ExerciseRegistry.create, hfind]
  · rw [ExerciseRegistry.create, hmiss]
  · exact registerAll_loop_nodup rs (ExerciseRegistry.empty α) List.nodup_nil
  · intro n
    rw [registerAll, registerAll_loop_mem]
    simp [ExerciseRegistry.empty, ExerciseRegistry.names]

/-- Witness for C8_registry on the module registry EXERCISES. -/
theorem C8_registry_witness :
    EXERCISES.creators.find? (fun kv => kv.1 == "Flashcards")
      = some ("Flashcards", mkFlashcards) ∧
    EXERCISES.creators.find? (fun kv => kv.1 == "Unknown") = none ∧
    EXERCISES.create "Flashcards" = Except.ok (mkFlashcards ()) ∧
    EXERCISES.create "Unknown"
      = Except.error ("Unknown exercise: " ++ "Unknown") :=
  ⟨rfl, rfl,
    (C8_registry Exercise EXERCISES EXERCISES "Flashcards" "Unknown"
      ("Flashcards", mkFlashcards) [] rfl rfl).1,
    (C8_registry Exercise EXERCISES EXERCISES "Flashcards" "Unknown"
      ("Flashcards", mkFlashcards) [] rfl rfl).2.1⟩

end FrenchPractice
